import Mathlib

/-!
Shallow embedding of `src/PasswordStrengthChecker.py` (Password Policy
Enforcement Tool) and verification of the specification's claims about it.

Passwords are modelled as Lean `String`s (sequences of `Char`).  The
floating-point entropy value computed by `math.log2` in the source is
modelled over the real numbers with `Real.logb 2`.  File I/O performed by
`check_common_password` (opening the corpus file) is modelled by an explicit
`CorpusSource` value describing the three outcomes the `try/except` in the
source distinguishes: a successful read yielding the file's lines, a
`FileNotFoundError`, and any other reading exception.
-/

namespace PasswordChecker

/-- Python `string.ascii_lowercase`. -/
def ascii_lowercase : List Char :=
  ['a', 'b', 'c', 'd', 'e', 'f', 'g', 'h', 'i', 'j', 'k', 'l', 'm',
   'n', 'o', 'p', 'q', 'r', 's', 't', 'u', 'v', 'w', 'x', 'y', 'z']

/-- Python `string.ascii_uppercase`. -/
def ascii_uppercase : List Char :=
  ['A', 'B', 'C', 'D', 'E', 'F', 'G', 'H', 'I', 'J', 'K', 'L', 'M',
   'N', 'O', 'P', 'Q', 'R', 'S', 'T', 'U', 'V', 'W', 'X', 'Y', 'Z']

/-- Python `string.digits`. -/
def digits : List Char :=
  ['0', '1', '2', '3', '4', '5', '6', '7', '8', '9']

/-- True iff ASCII code `n` is one of Python's `string.punctuation`
characters: codes 33-47, 58-64, 91-96, 123-126 (32 characters). -/
def isPunctCode (n : Nat) : Bool :=
  (33 ≤ n && n ≤ 47) || (58 ≤ n && n ≤ 64) || (91 ≤ n && n ≤ 96) ||
    (123 ≤ n && n ≤ 126)

/-- Python `string.punctuation`, built from the ASCII codes of its 32
characters. -/
def punctuation : List Char :=
  (List.range 128).filterMap fun n =>
    if isPunctCode n then some (Char.ofNat n) else none

/-- `any(c in string.ascii_lowercase for c in password)` (line 28). -/
def has_lower (password : String) : Bool :=
  password.data.any fun c => decide (c ∈ ascii_lowercase)

/-- `any(c in string.ascii_uppercase for c in password)` (line 29). -/
def has_upper (password : String) : Bool :=
  password.data.any fun c => decide (c ∈ ascii_uppercase)

/-- `any(c in string.digits for c in password)` (line 30). -/
def has_digit (password : String) : Bool :=
  password.data.any fun c => decide (c ∈ digits)

/-- `any(c in string.punctuation for c in password)` (line 31). -/
def has_special (password : String) : Bool :=
  password.data.any fun c => decide (c ∈ punctuation)

/-- Lines 34-42 of `calculate_entropy`: `N` starts at `0` and each present
character class adds its alphabet size (26 lowercase, 26 uppercase,
10 digits, 32 punctuation). -/
def charSpace (password : String) : Nat :=
  (if has_lower password then 26 else 0) +
    (if has_upper password then 26 else 0) +
    (if has_digit password then 10 else 0) +
    (if has_special password then 32 else 0)

/-- `calculate_entropy` (lines 12-49): `0.0` for the empty password,
`0.0` when `N == 0`, otherwise `L * math.log2(N)` with `L` the length.
The float computation is idealised over the reals. -/
noncomputable def calculate_entropy (password : String) : ℝ :=
  if password.isEmpty then 0.0
  else if charSpace password = 0 then 0.0
  else (password.length : ℝ) * Real.logb 2 (charSpace password)

/-- Decidable form of the source's float comparison `entropy < threshold`
for a natural threshold (the source compares against 40 and 60):
for a non-empty password with `N ≠ 0`, `L * log2 N < t` iff `N ^ L < 2 ^ t`.
`entropyBelow_iff` below proves this Boolean equal to the real comparison
on `calculate_entropy`. -/
def entropyBelow (password : String) (threshold : Nat) : Bool :=
  if password.isEmpty then true
  else if charSpace password = 0 then true
  else decide (charSpace password ^ password.length < 2 ^ threshold)

/-- Python `str.strip()` whitespace test: space, tab, newline, carriage
return, vertical tab, form feed. -/
def isPyWhitespace (c : Char) : Bool :=
  c == ' ' || c == '\t' || c == '\n' || c == '\r' ||
    c == Char.ofNat 11 || c == Char.ofNat 12

/-- Python `str.strip()`: drop leading and trailing whitespace. -/
def pyStrip (s : String) : String :=
  ⟨((s.data.dropWhile isPyWhitespace).reverse.dropWhile isPyWhitespace).reverse⟩

/-- The loop body of `check_common_password` (lines 65-69): return `True`
on the first corpus line whose stripped form equals the password
(compared verbatim), else `False`. -/
def isKnownWeak (password : String) (corpus : List String) : Bool :=
  corpus.any fun line => pyStrip line == password

/-- Outcome of opening the corpus file, the three cases that the
`try/except` in `check_common_password` distinguishes. -/
inductive CorpusSource where
  | lines (ls : List String)
  | fileNotFound
  | readError (msg : String)

/-- `check_common_password` (lines 52-75).  Returns the match result
together with the warning the exception handlers print (lines 71 and 74);
`none` means no warning was emitted. -/
def check_common_password (password : String) (src : CorpusSource) :
    Bool × Option String :=
  match src with
  | .lines ls => (isKnownWeak password ls, none)
  | .fileNotFound => (false, some "Warning: Common passwords file not found.")
  | .readError msg =>
      (false, some ("Error reading common passwords file: " ++ msg))

/-- The five violation reasons `main` can append (lines 247, 253, 258,
262, 266), as abstract tags; the source stores them as strings (the
entropy reason interpolates the measured value, which does not affect
which reasons appear or their order). -/
inductive Reason where
  | commonPassword
  | lowEntropy
  | missingUpper
  | missingDigit
  | missingSpecial
deriving DecidableEq

/-- The sequential appends to `violation_reasons` in `main`
(lines 243-266), in source order. -/
def violationReasons (is_common lowEnt hu hd hs : Bool) : List Reason :=
  let r : List Reason := []
  let r := if is_common then r ++ [Reason.commonPassword] else r
  let r := if lowEnt then r ++ [Reason.lowEntropy] else r
  let r := if !hu then r ++ [Reason.missingUpper] else r
  let r := if !hd then r ++ [Reason.missingDigit] else r
  let r := if !hs then r ++ [Reason.missingSpecial] else r
  r

/-- The `policy_violation` flag of `main` (lines 242-266): set to `True`
alongside each appended reason. -/
def policyViolation (is_common lowEnt hu hd hs : Bool) : Bool :=
  is_common || lowEnt || !hu || !hd || !hs

/-- The three strength bands of `get_strength_rating` (lines 78-112). -/
inductive StrengthRating where
  | veryWeak
  | medium
  | strong
deriving DecidableEq

/-- `get_strength_rating` (lines 88-105) on the idealised real entropy:
below 40 very weak, below 60 medium, otherwise strong.  (The suggestion
strings the source pairs with each rating are display text and are not
modelled.) -/
noncomputable def get_strength_rating (entropy : ℝ) : StrengthRating :=
  if entropy < 40 then .veryWeak
  else if entropy < 60 then .medium
  else .strong

/-- Computable rating of a password, branching on the decidable entropy
comparisons; `ratingFor_eq` proves it equal to
`get_strength_rating (calculate_entropy password)`. -/
def ratingFor (password : String) : StrengthRating :=
  if entropyBelow password 40 then .veryWeak
  else if entropyBelow password 60 then .medium
  else .strong

/-- Result of the policy-evaluation part of `main` option 1
(lines 226-300): the pass/fail verdict with its ordered reasons, the
strength rating (only computed when the password passes, line 286), and
any warning surfaced while reading the corpus. -/
structure EvalResult where
  passed : Bool
  reasons : List Reason
  rating : Option StrengthRating
  warning : Option String
deriving DecidableEq

/-- The policy evaluation `main` performs on a non-empty password
(lines 226-300): common-password check, entropy check, mandatory-class
checks, reasons collected in fixed order, rating only on pass. -/
def evaluatePolicy (password : String) (src : CorpusSource) : EvalResult :=
  let cc := check_common_password password src
  let is_common := cc.1
  let lowEnt := entropyBelow password 40
  let hu := has_upper password
  let hd := has_digit password
  let hs := has_special password
  let reasons := violationReasons is_common lowEnt hu hd hs
  if policyViolation is_common lowEnt hu hd hs then
    { passed := false, reasons := reasons, rating := none, warning := cc.2 }
  else
    { passed := true, reasons := reasons, rating := some (ratingFor password),
      warning := cc.2 }

/-- `main` option 1 (lines 213-300) as seen from the password input: an
empty password is rejected with an error message before any evaluation
(lines 217-219, modelled as `none`); otherwise the policy evaluation runs
and produces a verdict. -/
def main_option1 (password : String) (src : CorpusSource) :
    Option EvalResult :=
  if password.isEmpty then none
  else some (evaluatePolicy password src)

/-- `min_length = 10` (line 132). -/
def min_length : Nat := 10

/-- `all_chars = uppercase + lowercase + digits + special_chars`
(line 149). -/
def all_chars : List Char :=
  ascii_uppercase ++ ascii_lowercase ++ digits ++ punctuation

/-- The random choices `ctf_secure_generator` makes (lines 141-159): one
character from each mandatory class, the fill up to the minimum length,
and the 2-6 additional characters. -/
structure GenChoices where
  u : Char
  d : Char
  s : Char
  fill : List Char
  extra : List Char

/-- The constraints the source imposes on those choices: `u`, `d`, `s`
drawn from uppercase, digits and punctuation (lines 144-146); the fill
has `max 0 (min_length - 3)` characters from `all_chars` (lines 152-154);
the extra block has `random.randint(2, 6)` characters from `all_chars`
(lines 157-159). -/
def GenChoices.valid (g : GenChoices) : Prop :=
  g.u ∈ ascii_uppercase ∧ g.d ∈ digits ∧ g.s ∈ punctuation ∧
    g.fill.length = max 0 (min_length - 3) ∧ (∀ c ∈ g.fill, c ∈ all_chars) ∧
    2 ≤ g.extra.length ∧ g.extra.length ≤ 6 ∧ ∀ c ∈ g.extra, c ∈ all_chars

/-- The character list built by steps 1-3 of the generator, before the
shuffle of line 162. -/
def generatorPreShuffle (g : GenChoices) : List Char :=
  [g.u, g.d, g.s] ++ g.fill ++ g.extra

/-- `p` is a possible output of `ctf_secure_generator`: its characters
are a permutation (the `random.shuffle` of line 162) of a valid
pre-shuffle list. -/
def IsGeneratorOutput (p : String) : Prop :=
  ∃ g : GenChoices, g.valid ∧ p.data.Perm (generatorPreShuffle g)

/-- `p` is a string the generator can have built after step 2 (reaching
the minimum length) and before step 3 (the 2-6 additional characters):
the three mandatory-class seeds followed by the fill. -/
def IsPreStep3 (p : String) : Prop :=
  ∃ u d s fill, u ∈ ascii_uppercase ∧ d ∈ digits ∧ s ∈ punctuation ∧
    fill.length = max 0 (min_length - 3) ∧ (∀ c ∈ fill, c ∈ all_chars) ∧
    p.data = [u, d, s] ++ fill

/-! ### Helper lemmas about the entropy estimate -/

/-- The branchy source definition collapses to the spec formula
`L * log2 N`, using `logb 2 0 = 0` for the degenerate cases. -/
lemma calculate_entropy_eq (p : String) :
    calculate_entropy p = (p.length : ℝ) * Real.logb 2 (charSpace p) := by
  unfold calculate_entropy
  split
  · rename_i h
    have hp : p = "" := (String.isEmpty_iff p).1 h
    subst hp
    norm_num
  · split
    · rename_i h2
      rw [h2]
      norm_num
    · rfl

/-- The decidable entropy comparison agrees with the real one. -/
lemma entropyBelow_iff (p : String) (t : Nat) (ht : 0 < t) :
    (entropyBelow p t = true) ↔ calculate_entropy p < t := by
  unfold entropyBelow calculate_entropy
  split
  · simp only [true_iff]
    norm_num
    exact_mod_cast ht
  · split
    · simp only [true_iff]
      norm_num
      exact_mod_cast ht
    · rename_i h1 h2
      have hN : 0 < charSpace p := Nat.pos_of_ne_zero h2
      have hNr : (0 : ℝ) < (charSpace p : ℝ) := by exact_mod_cast hN
      have hpow : (0 : ℝ) < (charSpace p : ℝ) ^ p.length := pow_pos hNr _
      rw [decide_eq_true_eq, ← Real.logb_pow,
        Real.logb_lt_iff_lt_rpow one_lt_two hpow, Real.rpow_natCast]
      exact_mod_cast Iff.rfl

lemma entropyBelow_40 (p : String) :
    (entropyBelow p 40 = true) ↔ calculate_entropy p < 40 := by
  have h := entropyBelow_iff p 40 (by norm_num)
  simpa using h

lemma entropyBelow_60 (p : String) :
    (entropyBelow p 60 = true) ↔ calculate_entropy p < 60 := by
  have h := entropyBelow_iff p 60 (by norm_num)
  simpa using h

lemma calculate_entropy_ge_40 (p : String) (hE : entropyBelow p 40 = false) :
    (40 : ℝ) ≤ calculate_entropy p := by
  rw [← not_lt, ← entropyBelow_40]
  simp [hE]

/-! ### Helper lemmas about the character-class profile -/

lemma any_decide_mem_of_mem {c : Char} {l cs : List Char} (hc : c ∈ cs)
    (hcl : c ∈ l) : (cs.any fun x => decide (x ∈ l)) = true := by
  rw [List.any_eq_true]
  exact ⟨c, hc, decide_eq_true hcl⟩

lemma has_upper_of_mem {p : String} {c : Char} (hc : c ∈ p.data)
    (hcl : c ∈ ascii_uppercase) : has_upper p = true :=
  any_decide_mem_of_mem hc hcl

lemma has_digit_of_mem {p : String} {c : Char} (hc : c ∈ p.data)
    (hcl : c ∈ digits) : has_digit p = true :=
  any_decide_mem_of_mem hc hcl

lemma has_special_of_mem {p : String} {c : Char} (hc : c ∈ p.data)
    (hcl : c ∈ punctuation) : has_special p = true :=
  any_decide_mem_of_mem hc hcl

/-- When the three mandatory classes are present, `N` is 68 or 94. -/
lemma charSpace_ge_68 {p : String} (hu : has_upper p = true)
    (hd : has_digit p = true) (hs : has_special p = true) :
    68 ≤ charSpace p := by
  unfold charSpace
  rw [hu, hd, hs]
  cases h : has_lower p <;> norm_num

lemma charSpace_le_94 (p : String) : charSpace p ≤ 94 := by
  unfold charSpace
  cases has_lower p <;> cases has_upper p <;> cases has_digit p <;>
    cases has_special p <;> norm_num

/-- If the entropy base covers the three mandatory classes and the length
is at least 10, the password clears the 40-bit entropy threshold
(`68 ^ 10 ≥ 2 ^ 40`). -/
lemma entropyBelow_40_false {p : String} (hN : 68 ≤ charSpace p)
    (hL : 10 ≤ p.length) : entropyBelow p 40 = false := by
  have hdata : p.isEmpty = false := by
    cases hE : p.isEmpty
    · rfl
    · have hp : p = "" := (String.isEmpty_iff p).1 hE
      subst hp
      simp [String.length] at hL
  unfold entropyBelow
  rw [hdata]
  simp only [Bool.false_eq_true, if_false]
  have hN0 : charSpace p ≠ 0 := by omega
  rw [if_neg hN0, decide_eq_false_iff_not, not_lt]
  calc (2 : Nat) ^ 40 ≤ 68 ^ 10 := by norm_num
    _ ≤ charSpace p ^ 10 := Nat.pow_le_pow_left hN 10
    _ ≤ charSpace p ^ p.length := Nat.pow_le_pow_right (by omega) hL

/-! ### Disjointness of the four alphabets -/

lemma lower_not_upper {c : Char} (h : c ∈ ascii_lowercase) :
    c ∉ ascii_uppercase := by
  fin_cases h <;> decide

lemma lower_not_digit {c : Char} (h : c ∈ ascii_lowercase) : c ∉ digits := by
  fin_cases h <;> decide

lemma lower_not_special {c : Char} (h : c ∈ ascii_lowercase) :
    c ∉ punctuation := by
  fin_cases h <;> decide

lemma upper_not_digit {c : Char} (h : c ∈ ascii_uppercase) : c ∉ digits := by
  fin_cases h <;> decide

lemma upper_not_special {c : Char} (h : c ∈ ascii_uppercase) :
    c ∉ punctuation := by
  fin_cases h <;> decide

lemma digit_not_special {c : Char} (h : c ∈ digits) : c ∉ punctuation := by
  fin_cases h <;> decide

/-! ### Appending a character -/

lemma any_push (p : String) (c : Char) (l : List Char) :
    ((p.push c).data.any fun x => decide (x ∈ l)) =
      ((p.data.any fun x => decide (x ∈ l)) || decide (c ∈ l)) := by
  rw [String.data_push, List.any_append]
  simp

lemma has_lower_push (p : String) (c : Char) :
    has_lower (p.push c) = (has_lower p || decide (c ∈ ascii_lowercase)) :=
  any_push p c ascii_lowercase

lemma has_upper_push (p : String) (c : Char) :
    has_upper (p.push c) = (has_upper p || decide (c ∈ ascii_uppercase)) :=
  any_push p c ascii_uppercase

lemma has_digit_push (p : String) (c : Char) :
    has_digit (p.push c) = (has_digit p || decide (c ∈ digits)) :=
  any_push p c digits

lemma has_special_push (p : String) (c : Char) :
    has_special (p.push c) = (has_special p || decide (c ∈ punctuation)) :=
  any_push p c punctuation

lemma length_push (p : String) (c : Char) :
    (p.push c).length = p.length + 1 := by
  show (p.push c).data.length = p.data.length + 1
  rw [String.data_push, List.length_append, List.length_singleton]

/-- The hypothesis of the monotonicity claim: `c` belongs to a character
class that is already present in `p`. -/
def InPresentClass (p : String) (c : Char) : Prop :=
  (c ∈ ascii_lowercase ∧ has_lower p = true) ∨
    (c ∈ ascii_uppercase ∧ has_upper p = true) ∨
    (c ∈ digits ∧ has_digit p = true) ∨
    (c ∈ punctuation ∧ has_special p = true)

lemma or_decide_eq {b : Bool} {q : Prop} [Decidable q] (h : ¬q ∨ b = true) :
    (b || decide q) = b := by
  rcases h with h | h
  · simp [decide_eq_false h]
  · simp [h]

/-- Appending a character of an already-present class leaves the class
profile, and hence `N`, unchanged (the four alphabets are disjoint). -/
lemma charSpace_push_eq {p : String} {c : Char} (h : InPresentClass p c) :
    charSpace (p.push c) = charSpace p := by
  have hl : has_lower (p.push c) = has_lower p := by
    rw [has_lower_push]
    apply or_decide_eq
    rcases h with ⟨hc, hp⟩ | ⟨hc, _⟩ | ⟨hc, _⟩ | ⟨hc, _⟩
    · exact Or.inr hp
    · exact Or.inl fun hx => lower_not_upper hx hc
    · exact Or.inl fun hx => lower_not_digit hx hc
    · exact Or.inl fun hx => lower_not_special hx hc
  have hu : has_upper (p.push c) = has_upper p := by
    rw [has_upper_push]
    apply or_decide_eq
    rcases h with ⟨hc, _⟩ | ⟨hc, hp⟩ | ⟨hc, _⟩ | ⟨hc, _⟩
    · exact Or.inl (lower_not_upper hc)
    · exact Or.inr hp
    · exact Or.inl fun hx => upper_not_digit hx hc
    · exact Or.inl fun hx => upper_not_special hx hc
  have hd : has_digit (p.push c) = has_digit p := by
    rw [has_digit_push]
    apply or_decide_eq
    rcases h with ⟨hc, _⟩ | ⟨hc, _⟩ | ⟨hc, hp⟩ | ⟨hc, _⟩
    · exact Or.inl (lower_not_digit hc)
    · exact Or.inl (upper_not_digit hc)
    · exact Or.inr hp
    · exact Or.inl fun hx => digit_not_special hx hc
  have hs : has_special (p.push c) = has_special p := by
    rw [has_special_push]
    apply or_decide_eq
    rcases h with ⟨hc, _⟩ | ⟨hc, _⟩ | ⟨hc, _⟩ | ⟨hc, hp⟩
    · exact Or.inl (lower_not_special hc)
    · exact Or.inl (upper_not_special hc)
    · exact Or.inl (digit_not_special hc)
    · exact Or.inr hp
  unfold charSpace
  rw [hl, hu, hd, hs]

lemma charSpaceAux_ge : ∀ a b c d : Bool, (a || b || c || d) = true →
    10 ≤ (if a then 26 else 0) + (if b then 26 else 0) +
      (if c then 10 else 0) + (if d then 32 else 0) := by
  decide

/-- An already-present class gives `N ≥ 10` (the smallest alphabet). -/
lemma charSpace_ge_10 {p : String} {c : Char} (h : InPresentClass p c) :
    10 ≤ charSpace p := by
  unfold charSpace
  apply charSpaceAux_ge
  rcases h with ⟨_, hp⟩ | ⟨_, hp⟩ | ⟨_, hp⟩ | ⟨_, hp⟩ <;> simp [hp]

/-- Appending a character of an already-present class strictly increases
the entropy estimate. -/
lemma calculate_entropy_push_gt {p : String} {c : Char}
    (h : InPresentClass p c) :
    calculate_entropy p < calculate_entropy (p.push c) := by
  rw [calculate_entropy_eq, calculate_entropy_eq, charSpace_push_eq h,
    length_push]
  have hN : 10 ≤ charSpace p := charSpace_ge_10 h
  have hb : (0 : ℝ) < Real.logb 2 (charSpace p) := by
    apply Real.logb_pos one_lt_two
    exact_mod_cast (by omega : 1 < charSpace p)
  have hL : (p.length : ℝ) < ((p.length + 1 : ℕ) : ℝ) := by
    exact_mod_cast Nat.lt_succ_self _
  exact mul_lt_mul_of_pos_right hL hb

/-! ### Helper lemmas about the evaluator -/

lemma evaluatePolicy_reasons (p : String) (src : CorpusSource) :
    (evaluatePolicy p src).reasons =
      violationReasons (check_common_password p src).1 (entropyBelow p 40)
        (has_upper p) (has_digit p) (has_special p) := by
  cases h : policyViolation (check_common_password p src).1 (entropyBelow p 40)
      (has_upper p) (has_digit p) (has_special p) <;>
    simp [evaluatePolicy, h]

lemma evaluatePolicy_passed (p : String) (src : CorpusSource) :
    (evaluatePolicy p src).passed =
      !(policyViolation (check_common_password p src).1 (entropyBelow p 40)
        (has_upper p) (has_digit p) (has_special p)) := by
  cases h : policyViolation (check_common_password p src).1 (entropyBelow p 40)
      (has_upper p) (has_digit p) (has_special p) <;>
    simp [evaluatePolicy, h]

lemma evaluatePolicy_warning (p : String) (src : CorpusSource) :
    (evaluatePolicy p src).warning = (check_common_password p src).2 := by
  cases h : policyViolation (check_common_password p src).1 (entropyBelow p 40)
      (has_upper p) (has_digit p) (has_special p) <;>
    simp [evaluatePolicy, h]

lemma evaluatePolicy_rating (p : String) (src : CorpusSource) :
    (evaluatePolicy p src).rating =
      if policyViolation (check_common_password p src).1 (entropyBelow p 40)
          (has_upper p) (has_digit p) (has_special p)
      then none else some (ratingFor p) := by
  cases h : policyViolation (check_common_password p src).1 (entropyBelow p 40)
      (has_upper p) (has_digit p) (has_special p) <;>
    simp [evaluatePolicy, h]

/-- Truth table facts about `violationReasons` and `policyViolation`:
the verdict is a failure exactly when some reason was appended, each
reason appears exactly when its check fails, and the reason list is an
ordered sublist of the fixed priority order. -/
lemma violationReasons_spec : ∀ a b c d e : Bool,
    (violationReasons a b c d e = [] ↔ policyViolation a b c d e = false) ∧
    ((!policyViolation a b c d e) = false ↔ violationReasons a b c d e ≠ []) ∧
    (Reason.commonPassword ∈ violationReasons a b c d e ↔ a = true) ∧
    (Reason.lowEntropy ∈ violationReasons a b c d e ↔ b = true) ∧
    (Reason.missingUpper ∈ violationReasons a b c d e ↔ c = false) ∧
    (Reason.missingDigit ∈ violationReasons a b c d e ↔ d = false) ∧
    (Reason.missingSpecial ∈ violationReasons a b c d e ↔ e = false) ∧
    (violationReasons a b c d e).Sublist
      [Reason.commonPassword, Reason.lowEntropy, Reason.missingUpper,
       Reason.missingDigit, Reason.missingSpecial] := by
  decide

/-- The computable rating agrees with `get_strength_rating` applied to
the real entropy estimate. -/
lemma ratingFor_eq (p : String) :
    ratingFor p = get_strength_rating (calculate_entropy p) := by
  unfold ratingFor get_strength_rating
  cases h40 : entropyBelow p 40
  · have h40R : ¬calculate_entropy p < 40 := by
      rw [← entropyBelow_40, h40]
      simp
    cases h60 : entropyBelow p 60
    · have h60R : ¬calculate_entropy p < 60 := by
        rw [← entropyBelow_60, h60]
        simp
      simp [h40R, h60R]
    · simp [h40R, (entropyBelow_60 p).1 h60]
  · simp [(entropyBelow_40 p).1 h40]

/-! ### Helper lemmas about the corpus matcher -/

lemma isKnownWeak_iff (password : String) (corpus : List String) :
    isKnownWeak password corpus = true ↔
      ∃ line ∈ corpus, pyStrip line = password := by
  unfold isKnownWeak
  rw [List.any_eq_true]
  simp only [beq_iff_eq]

lemma isKnownWeak_eq_false {password : String} {corpus : List String}
    (h : ∀ line ∈ corpus, pyStrip line ≠ password) :
    isKnownWeak password corpus = false := by
  rw [Bool.eq_false_iff]
  intro hx
  obtain ⟨line, hmem, heq⟩ := (isKnownWeak_iff password corpus).1 hx
  exact h line hmem heq

lemma pyStrip_eq_empty {s : String} (h : ∀ c ∈ s.data, isPyWhitespace c = true) :
    pyStrip s = "" := by
  unfold pyStrip
  rw [List.dropWhile_eq_nil_iff.2 h]
  decide

/-! ### Helper lemmas about the generator -/

lemma generator_facts {p : String} (h : IsGeneratorOutput p) :
    12 ≤ p.length ∧ p.length ≤ 16 ∧ has_upper p = true ∧
      has_digit p = true ∧ has_special p = true ∧ entropyBelow p 40 = false := by
  obtain ⟨g, hg, hperm⟩ := h
  obtain ⟨hu, hd, hs, hfill, _, he2, he6, _⟩ := hg
  have hfill7 : g.fill.length = 7 := by
    norm_num [min_length] at hfill
    exact hfill
  have hlen : p.length = 10 + g.extra.length := by
    show p.data.length = _
    rw [hperm.length_eq]
    unfold generatorPreShuffle
    simp [hfill7]
    omega
  have hL12 : 12 ≤ p.length := by omega
  have hL16 : p.length ≤ 16 := by omega
  have humem : g.u ∈ p.data := by
    rw [hperm.mem_iff]
    unfold generatorPreShuffle
    simp
  have hdmem : g.d ∈ p.data := by
    rw [hperm.mem_iff]
    unfold generatorPreShuffle
    simp
  have hsmem : g.s ∈ p.data := by
    rw [hperm.mem_iff]
    unfold generatorPreShuffle
    simp
  have hup := has_upper_of_mem humem hu
  have hdig := has_digit_of_mem hdmem hd
  have hsp := has_special_of_mem hsmem hs
  refine ⟨hL12, hL16, hup, hdig, hsp, ?_⟩
  exact entropyBelow_40_false (charSpace_ge_68 hup hdig hsp) (by omega)

lemma preStep3_facts {p : String} (h : IsPreStep3 p) :
    p.length = 10 ∧ entropyBelow p 40 = false ∧
      (40 : ℝ) ≤ calculate_entropy p := by
  obtain ⟨u, d, s, fill, hu, hd, hs, hfill, _, hdata⟩ := h
  have hfill7 : fill.length = 7 := by
    norm_num [min_length] at hfill
    exact hfill
  have hlen : p.length = 10 := by
    show p.data.length = 10
    rw [hdata]
    simp [hfill7]
  have hup : has_upper p = true :=
    has_upper_of_mem (by rw [hdata]; simp) hu
  have hdig : has_digit p = true :=
    has_digit_of_mem (by rw [hdata]; simp) hd
  have hsp : has_special p = true :=
    has_special_of_mem (by rw [hdata]; simp) hs
  have hbelow : entropyBelow p 40 = false :=
    entropyBelow_40_false (charSpace_ge_68 hup hdig hsp) (by omega)
  exact ⟨hlen, hbelow, calculate_entropy_ge_40 p hbelow⟩

/-! ### The claims -/

/-- C1: every possible output of `ctf_secure_generator` has length at
least 10, contains at least one uppercase letter, digit and special
character, has an entropy estimate of at least 40 bits, and the policy
evaluation applied to it with an empty weakness corpus passes. -/
theorem C1_generator_compliant (p : String) (h : IsGeneratorOutput p) :
    10 ≤ p.length ∧ has_upper p = true ∧ has_digit p = true ∧
      has_special p = true ∧ (40 : ℝ) ≤ calculate_entropy p ∧
      (evaluatePolicy p (.lines [])).passed = true := by
  obtain ⟨hL12, _, hup, hdig, hsp, hbelow⟩ := generator_facts h
  refine ⟨by omega, hup, hdig, hsp, calculate_entropy_ge_40 p hbelow, ?_⟩
  rw [evaluatePolicy_passed]
  have hcc : (check_common_password p (.lines [])).1 = false := rfl
  rw [hcc, hbelow, hup, hdig, hsp]
  rfl

/-- Witness for C1 at the concrete generator output `A0!BCDEFGHIJ`
(seeds `A`, `0`, `!`, fill `BCDEFGH`, extras `IJ`, identity shuffle). -/
theorem C1_generator_compliant_witness :
    10 ≤ ("A0!BCDEFGHIJ" : String).length ∧
      has_upper "A0!BCDEFGHIJ" = true ∧ has_digit "A0!BCDEFGHIJ" = true ∧
      has_special "A0!BCDEFGHIJ" = true ∧
      (40 : ℝ) ≤ calculate_entropy "A0!BCDEFGHIJ" ∧
      (evaluatePolicy "A0!BCDEFGHIJ" (.lines [])).passed = true :=
  C1_generator_compliant "A0!BCDEFGHIJ"
    ⟨⟨'A', '0', '!', ['B', 'C', 'D', 'E', 'F', 'G', 'H'], ['I', 'J']⟩,
      by unfold GenChoices.valid; decide, by decide⟩

/-- C3: the entropy estimate equals `length * log2 N` with `N` the sum of
the alphabet sizes of exactly the present classes, and it is `0` for the
empty password and when no recognised class is present. -/
theorem C3_entropy_formula (password : String) :
    calculate_entropy password =
      (password.length : ℝ) * Real.logb 2 (charSpace password) ∧
    (password = "" → calculate_entropy password = 0) ∧
    (charSpace password = 0 → calculate_entropy password = 0) ∧
    charSpace password =
      (if has_lower password then 26 else 0) +
        (if has_upper password then 26 else 0) +
        (if has_digit password then 10 else 0) +
        (if has_special password then 32 else 0) := by
  refine ⟨calculate_entropy_eq password, ?_, ?_, rfl⟩
  · rintro rfl
    rw [calculate_entropy_eq]
    have h0 : ("" : String).length = 0 := rfl
    rw [h0]
    norm_num
  · intro h
    rw [calculate_entropy_eq, h]
    norm_num

/-- Witness for C3 at the empty password, where both zero cases fire. -/
theorem C3_entropy_formula_witness :
    ("" : String) = "" ∧ charSpace "" = 0 ∧ calculate_entropy "" = 0 :=
  ⟨rfl, by decide, (C3_entropy_formula "").2.1 rfl⟩

/-- C4: the corpus matcher returns true iff some corpus line, stripped of
leading/trailing whitespace, equals the password verbatim; matching is
case-sensitive and the password itself is not trimmed. -/
theorem C4_matcher_exact (password : String) (corpus : List String) :
    ((check_common_password password (.lines corpus)).1 = true ↔
      ∃ line ∈ corpus, pyStrip line = password) ∧
    (check_common_password "Password123" (.lines ["password123"])).1 = false ∧
    (check_common_password "password123"
      (.lines ["  password123  "])).1 = true :=
  ⟨isKnownWeak_iff password corpus, by decide, by decide⟩

/-- C2: the verdict fails iff the reasons list is non-empty, each of the
five checks contributes its reason exactly when it fails (no
short-circuiting), the reasons appear in the fixed priority order (the
list is always an ordered sublist of the full priority list), and, the
`Reason` type being exhaustive, absence of lowercase is never among the
reasons. -/
theorem C2_verdict_reasons (password : String) (corpus : List String) :
    ((evaluatePolicy password (.lines corpus)).passed = false ↔
      (evaluatePolicy password (.lines corpus)).reasons ≠ []) ∧
    (Reason.commonPassword ∈ (evaluatePolicy password (.lines corpus)).reasons
      ↔ isKnownWeak password corpus = true) ∧
    (Reason.lowEntropy ∈ (evaluatePolicy password (.lines corpus)).reasons ↔
      calculate_entropy password < 40) ∧
    (Reason.missingUpper ∈ (evaluatePolicy password (.lines corpus)).reasons ↔
      has_upper password = false) ∧
    (Reason.missingDigit ∈ (evaluatePolicy password (.lines corpus)).reasons ↔
      has_digit password = false) ∧
    (Reason.missingSpecial ∈ (evaluatePolicy password (.lines corpus)).reasons
      ↔ has_special password = false) ∧
    (evaluatePolicy password (.lines corpus)).reasons.Sublist
      [Reason.commonPassword, Reason.lowEntropy, Reason.missingUpper,
       Reason.missingDigit, Reason.missingSpecial] := by
  obtain ⟨-, h1, h2, h3, h4, h5, h6, h7⟩ :=
    violationReasons_spec (check_common_password password (.lines corpus)).1
      (entropyBelow password 40) (has_upper password) (has_digit password)
      (has_special password)
  rw [evaluatePolicy_reasons, evaluatePolicy_passed]
  exact ⟨h1, h2, h3.trans (entropyBelow_40 password), h4, h5, h6, h7⟩

/-- C5: when the corpus file is missing or any other read error occurs,
the matcher reports no match together with a warning, and the policy
evaluation still completes with exactly the verdict it would give for an
empty corpus (entropy and character-class checks alone). -/
theorem C5_corpus_failure_graceful (password msg : String) :
    (check_common_password password .fileNotFound).1 = false ∧
    (check_common_password password .fileNotFound).2 ≠ none ∧
    (check_common_password password (.readError msg)).1 = false ∧
    (check_common_password password (.readError msg)).2 ≠ none ∧
    (evaluatePolicy password .fileNotFound).warning ≠ none ∧
    (evaluatePolicy password (.readError msg)).warning ≠ none ∧
    (evaluatePolicy password .fileNotFound).passed =
      (evaluatePolicy password (.lines [])).passed ∧
    (evaluatePolicy password .fileNotFound).reasons =
      (evaluatePolicy password (.lines [])).reasons ∧
    (evaluatePolicy password .fileNotFound).rating =
      (evaluatePolicy password (.lines [])).rating ∧
    (evaluatePolicy password (.readError msg)).passed =
      (evaluatePolicy password (.lines [])).passed ∧
    (evaluatePolicy password (.readError msg)).reasons =
      (evaluatePolicy password (.lines [])).reasons ∧
    (evaluatePolicy password (.readError msg)).rating =
      (evaluatePolicy password (.lines [])).rating := by
  refine ⟨rfl, by simp [check_common_password], rfl,
    by simp [check_common_password], ?_, ?_, ?_, ?_, ?_, ?_, ?_, ?_⟩
  · rw [evaluatePolicy_warning]
    simp [check_common_password]
  · rw [evaluatePolicy_warning]
    simp [check_common_password]
  · rw [evaluatePolicy_passed, evaluatePolicy_passed]
    rfl
  · rw [evaluatePolicy_reasons, evaluatePolicy_reasons]
    rfl
  · rw [evaluatePolicy_rating, evaluatePolicy_rating]
    rfl
  · rw [evaluatePolicy_passed, evaluatePolicy_passed]
    rfl
  · rw [evaluatePolicy_reasons, evaluatePolicy_reasons]
    rfl
  · rw [evaluatePolicy_rating, evaluatePolicy_rating]
    rfl

/-- C6 counterexample: on the concrete run with an empty corpus and the
empty-string password, `main` rejects the input with an error message
before any evaluation takes place (lines 217-219 of the source), so no
verdict at all is produced — evaluating the empty string is not the
normal flow the claim describes. -/
theorem C6_counterexample : main_option1 "" (.lines []) = none := rfl

/-- C6 amended: the core policy evaluation (the code past `main`'s
empty-input guard) applied to the empty string yields entropy `0` and a
failing verdict whose reasons are exactly entropy-deficiency and the
three missing-class reasons, with no common-password reason when no
corpus line trims to the empty string; `main` itself, however, rejects
the empty password before evaluating it. -/
theorem C6_amended_empty_password (corpus : List String)
    (h : ∀ line ∈ corpus, pyStrip line ≠ "") :
    calculate_entropy "" = 0 ∧
    (evaluatePolicy "" (.lines corpus)).passed = false ∧
    (evaluatePolicy "" (.lines corpus)).reasons =
      [Reason.lowEntropy, Reason.missingUpper, Reason.missingDigit,
       Reason.missingSpecial] ∧
    main_option1 "" (.lines corpus) = none := by
  have hcc : (check_common_password "" (.lines corpus)).1 = false :=
    isKnownWeak_eq_false h
  refine ⟨?_, ?_, ?_, rfl⟩
  · rw [calculate_entropy_eq]
    have h0 : ("" : String).length = 0 := rfl
    rw [h0]
    norm_num
  · rw [evaluatePolicy_passed, hcc]
    decide
  · rw [evaluatePolicy_reasons, hcc]
    decide

/-- Witness for the amended C6 at the empty corpus. -/
theorem C6_amended_empty_password_witness :
    (∀ line ∈ ([] : List String), pyStrip line ≠ "") ∧
      (calculate_entropy "" = 0 ∧
        (evaluatePolicy "" (.lines [])).passed = false ∧
        (evaluatePolicy "" (.lines [])).reasons =
          [Reason.lowEntropy, Reason.missingUpper, Reason.missingDigit,
           Reason.missingSpecial] ∧
        main_option1 "" (.lines []) = none) :=
  ⟨by simp, C6_amended_empty_password [] (by simp)⟩

/-- C7 counterexample: the claim's existential is false — there is no
length-10 string producible by the generator before step 3 whose entropy
estimate is below 40 bits, because any such string already contains an
uppercase letter, a digit and a special character, so `N ≥ 68` and
`10 * log2 68 ≈ 60.9 ≥ 40`. -/
theorem C7_counterexample :
    ¬∃ p : String, IsPreStep3 p ∧ calculate_entropy p < 40 := by
  rintro ⟨p, hp, hlt⟩
  exact absurd hlt (not_lt.2 (preStep3_facts hp).2.2)

/-- C7 amended: reaching the minimum length of 10 alone is already
sufficient for the 40-bit entropy guarantee — every string the generator
can have built before step 3 has length 10 and entropy estimate at least
40 bits; the 2-6 extra characters of step 3 enlarge the margin but are
not needed for that guarantee. -/
theorem C7_amended_min_length_sufficient (p : String) (h : IsPreStep3 p) :
    p.length = 10 ∧ (40 : ℝ) ≤ calculate_entropy p :=
  ⟨(preStep3_facts h).1, (preStep3_facts h).2.2⟩

/-- Witness for the amended C7 at the concrete pre-step-3 string
`A0!BCDEFGH`. -/
theorem C7_amended_min_length_sufficient_witness :
    ("A0!BCDEFGH" : String).length = 10 ∧
      (40 : ℝ) ≤ calculate_entropy "A0!BCDEFGH" :=
  C7_amended_min_length_sufficient "A0!BCDEFGH"
    ⟨'A', '0', '!', ['B', 'C', 'D', 'E', 'F', 'G', 'H'], by decide⟩

/-- C8: the strength rating is a pure function of the entropy value with
bands `<40`, `[40,60)`, `≥60`, and every passing evaluation carries a
rating — equal to `get_strength_rating` of the password's entropy — that
is Medium or Strong, never VeryWeak. -/
theorem C8_rating_bands :
    (∀ e : ℝ, (e < 40 → get_strength_rating e = .veryWeak) ∧
      (40 ≤ e → e < 60 → get_strength_rating e = .medium) ∧
      (60 ≤ e → get_strength_rating e = .strong)) ∧
    ∀ (p : String) (src : CorpusSource),
      (evaluatePolicy p src).passed = true →
        (evaluatePolicy p src).rating =
            some (get_strength_rating (calculate_entropy p)) ∧
          ((evaluatePolicy p src).rating = some .medium ∨
            (evaluatePolicy p src).rating = some .strong) := by
  constructor
  · intro e
    refine ⟨fun h => ?_, fun h40 h60 => ?_, fun h60 => ?_⟩
    · unfold get_strength_rating
      rw [if_pos h]
    · unfold get_strength_rating
      rw [if_neg (not_lt.2 h40), if_pos h60]
    · unfold get_strength_rating
      rw [if_neg (by linarith), if_neg (not_lt.2 h60)]
  · intro p src hpass
    rw [evaluatePolicy_passed] at hpass
    have hv : policyViolation (check_common_password p src).1
        (entropyBelow p 40) (has_upper p) (has_digit p)
        (has_special p) = false := by
      cases h : policyViolation (check_common_password p src).1
          (entropyBelow p 40) (has_upper p) (has_digit p) (has_special p)
      · rfl
      · rw [h] at hpass
        exact absurd hpass (by simp)
    have h40 : entropyBelow p 40 = false := by
      unfold policyViolation at hv
      cases hx : entropyBelow p 40
      · rfl
      · rw [hx] at hv
        simp at hv
    have hrat : (evaluatePolicy p src).rating = some (ratingFor p) := by
      rw [evaluatePolicy_rating, hv]
      simp
    have hmed : ratingFor p = .medium ∨ ratingFor p = .strong := by
      unfold ratingFor
      rw [h40]
      cases h60 : entropyBelow p 60
      · right
        simp
      · left
        simp
    refine ⟨by rw [hrat, ratingFor_eq], ?_⟩
    rcases hmed with h | h
    · left
      rw [hrat, h]
    · right
      rw [hrat, h]

/-- Witness for C8: concrete entropies in each band and the concrete
passing password `A0!BCDEFGHIJ` (whose rating is Medium or Strong). -/
theorem C8_rating_bands_witness :
    get_strength_rating 30 = .veryWeak ∧ get_strength_rating 50 = .medium ∧
      get_strength_rating 70 = .strong ∧
      ((evaluatePolicy "A0!BCDEFGHIJ" (.lines [])).rating = some .medium ∨
        (evaluatePolicy "A0!BCDEFGHIJ" (.lines [])).rating = some .strong) :=
  ⟨(C8_rating_bands.1 30).1 (by norm_num),
   (C8_rating_bands.1 50).2.1 (by norm_num) (by norm_num),
   (C8_rating_bands.1 70).2.2 (by norm_num),
   (C8_rating_bands.2 "A0!BCDEFGHIJ" (.lines []) (by decide)).2⟩

/-- C9: appending one character belonging to an already-present class
leaves the class profile and `N` unchanged and strictly increases the
entropy estimate. -/
theorem C9_entropy_monotonic (p : String) (c : Char)
    (h : InPresentClass p c) :
    charSpace (p.push c) = charSpace p ∧
      calculate_entropy p < calculate_entropy (p.push c) :=
  ⟨charSpace_push_eq h, calculate_entropy_push_gt h⟩

/-- Witness for C9: appending the lowercase `d` to `abc`. -/
theorem C9_entropy_monotonic_witness :
    InPresentClass "abc" 'd' ∧
      (charSpace ("abc".push 'd') = charSpace "abc" ∧
        calculate_entropy "abc" < calculate_entropy ("abc".push 'd')) :=
  ⟨by unfold InPresentClass; decide,
    C9_entropy_monotonic "abc" 'd' (by unfold InPresentClass; decide)⟩

/-- C10: a corpus line that is empty or all-whitespace trims to the empty
string, so the matcher reports the empty-string password as a known weak
password. -/
theorem C10_whitespace_line_matches_empty (corpus : List String)
    (line : String) (hmem : line ∈ corpus)
    (hws : ∀ c ∈ line.data, isPyWhitespace c = true) :
    (check_common_password "" (.lines corpus)).1 = true := by
  show isKnownWeak "" corpus = true
  rw [isKnownWeak_iff]
  exact ⟨line, hmem, pyStrip_eq_empty hws⟩

/-- Witness for C10 at the one-line corpus of three spaces. -/
theorem C10_whitespace_line_matches_empty_witness :
    ("   " : String) ∈ ["   "] ∧
      (∀ c ∈ ("   " : String).data, isPyWhitespace c = true) ∧
      (check_common_password "" (.lines ["   "])).1 = true :=
  ⟨by decide, by decide,
    C10_whitespace_line_matches_empty ["   "] "   " (by decide) (by decide)⟩

end PasswordChecker
